import Mathlib

/-!
Verification of `multitrack_player.py` (Multitrack Player v17).

This file gives a shallow embedding, in Lean 4, of the parts of the program
that the specification's claims are about:

* the sounddevice audio callback `TrackPlayerSD._callback` (resampling via
  `np.interp`, end-of-file padding, volume scaling, channel adjustment);
* the UI tick step `MainWindow.ui_tick` (loop wrap detection) together with
  `TrackPlayerSD.seek`, `Timeline.set_position` and `Timeline.set_duration`;
* the transport start `MainWindow.on_play` (modelled as an event trace);
* the project-settings document built by `MainWindow.on_save` (modelled over
  an explicit JSON value type) and the file writes performed by `on_save`
  and `MainWindow.closeEvent`;
* `MainWindow.load_tracks` / `main` error handling when the audio backend is
  unavailable;
* the playback-rate buttons `on_rate_plus` / `on_rate_minus`;
* `build_output_device_list`.

Python floats are modelled as rationals (`ℚ`); machine reals and rationals
agree on every branch decision taken below.  GUI rendering state (the pulse
animation of the timeline, whose speed is the irrational `2π/2`) is not part
of any claim and is omitted from the embedded state.
-/

/-! ### The audio callback `TrackPlayerSD._callback`

Python source (lines 451-493).  The callback receives the output buffer
shape `(frames, channels)`; the mutable state it reads is the stop flag, the
playback rate, the volume, and the open sound file (whose remaining frames
and channel count we carry explicitly).  `sf.read(frames=n, always_2d=True)`
returns the next `min(n, remaining)` frames, each a row of `srcChannels`
samples, and advances the file pointer by that many frames. -/

/-- State read by one invocation of `TrackPlayerSD._callback`: the stop
flag, the playback rate and volume (read under the lock), the stream channel
count (`outdata` has this many columns), the frames remaining in the open
sound file from the current file-pointer position, and the file's channel
count (the width `src.shape[1]` that `always_2d=True` produces). -/
structure CallbackInput where
  stopFlag : Bool
  rate : ℚ
  vol : ℚ
  channels : ℕ
  srcChannels : ℕ
  fileRemaining : List (List ℚ)

/-- Result of one invocation of `TrackPlayerSD._callback`: the block written
to `outdata`, the number of source frames the `sf.read` call consumed from
the file, and whether `sd.CallbackStop` was raised. -/
structure CallbackOutput where
  outdata : List (List ℚ)
  consumed : ℕ
  callbackStop : Bool

/-- Model of `np.zeros((frames, channels), dtype='float32')`. -/
def zerosBlock (frames channels : ℕ) : List (List ℚ) :=
  List.replicate frames (List.replicate channels 0)

/-- Model of `src_frames_needed = int(np.ceil(frames / max(1e-6, rate))) + 4`
(line 458). -/
def srcFramesNeeded (frames : ℕ) (rate : ℚ) : ℕ :=
  (⌈(frames : ℚ) / max (1/1000000) rate⌉).toNat + 4

/-- Model of `np.interp(x, xp, fp)` for the callback's grid: `xp` is
`0, 1, ..., ys.length` and `fp` is `ys` extended by one trailing `0.0`
sample (lines 476-479: `xp = concatenate([xs, [xs[-1]+1]])`,
`fp = concatenate([ys, [0.0]])`).  `np.interp` clamps below `xp[0] = 0` to
`fp[0]` and above `xp[-1] = ys.length` to the appended `0.0`; in between it
interpolates linearly between the two bracketing grid points. -/
def interpZeroExt (ys : List ℚ) (x : ℚ) : ℚ :=
  if x ≤ 0 then ys.getD 0 0
  else if (ys.length : ℚ) ≤ x then 0
  else ys.getD (⌊x⌋).toNat 0 +
    (x - (⌊x⌋).toNat) * (ys.getD ((⌊x⌋).toNat + 1) 0 - ys.getD (⌊x⌋).toNat 0)

/-- Column `ch` of the source block `src` (the Python `src[:, ch]`). -/
def srcColumn (src : List (List ℚ)) (ch : ℕ) : List ℚ :=
  src.map (fun row => row.getD ch 0)

namespace TrackPlayerSD

/-- Shallow embedding of `TrackPlayerSD._callback` (lines 451-493).

* stop flag set: write a zero block and raise `CallbackStop`;
* read `src_frames_needed` frames; if nothing was read, write a zero block
  and raise `CallbackStop`;
* `rate == 1.0`: copy the first `frames` source frames, zero-padding when
  the source block is shorter (lines 465-470);
* `rate != 1.0`: per channel, linearly interpolate the zero-extended source
  column at the positions `i / rate`, `i = 0, ..., frames-1` (lines 471-479);
* multiply by the volume (line 480);
* pad with zero columns or drop columns so that the block has exactly
  `outdata.shape[1] = channels` columns (lines 482-486). -/
def callback (frames : ℕ) (inp : CallbackInput) : CallbackOutput :=
  if inp.stopFlag then
    { outdata := zerosBlock frames inp.channels, consumed := 0, callbackStop := true }
  else
    let src := inp.fileRemaining.take (srcFramesNeeded frames inp.rate)
    if src.isEmpty then
      { outdata := zerosBlock frames inp.channels, consumed := src.length, callbackStop := true }
    else
      let srcLen := src.length
      let value : ℕ → ℕ → ℚ :=
        if inp.rate = 1 then
          if srcLen ≥ frames then
            fun i ch => (src.getD i []).getD ch 0
          else
            fun i ch => if i < srcLen then (src.getD i []).getD ch 0 else 0
        else
          fun i ch => interpZeroExt (srcColumn src ch) ((i : ℚ) / inp.rate)
      let outRows := (List.range frames).map (fun i =>
        (List.range inp.channels).map (fun ch =>
          if ch < inp.srcChannels then inp.vol * value i ch else 0))
      { outdata := outRows, consumed := src.length, callbackStop := false }

end TrackPlayerSD

/-! ### List helper lemmas -/

theorem map_getD_range {α : Type} (l : List α) (d : α) :
    (List.range l.length).map (fun i => l.getD i d) = l := by
  induction l with
  | nil => simp
  | cons a t ih =>
    rw [List.length_cons, List.range_succ_eq_map, List.map_cons, List.map_map]
    simp only [List.getD_cons_zero, List.cons.injEq, true_and]
    calc (List.range t.length).map ((fun i => (a :: t).getD i d) ∘ (· + 1))
        = (List.range t.length).map (fun i => t.getD i d) := by
          apply List.map_congr_left; intro i _; simp
      _ = t := ih

theorem map_getD_range_take {α : Type} (l : List α) (d : α) (n : ℕ) (h : n ≤ l.length) :
    (List.range n).map (fun i => l.getD i d) = l.take n := by
  induction l generalizing n with
  | nil => simp at h; simp [h]
  | cons a t ih =>
    cases n with
    | zero => simp
    | succ m =>
      rw [List.range_succ_eq_map, List.map_cons, List.map_map, List.take_succ_cons]
      simp only [List.getD_cons_zero, List.cons.injEq, true_and]
      calc (List.range m).map ((fun i => (a :: t).getD i d) ∘ (· + 1))
          = (List.range m).map (fun i => t.getD i d) := by
            apply List.map_congr_left; intro i _; simp
        _ = t.take m := ih m (by simpa using h)

theorem getD_map_range {α : Type} (n i : ℕ) (f : ℕ → α) (d : α) (h : i < n) :
    ((List.range n).map f).getD i d = f i := by
  rw [List.getD_eq_getElem _ _ (by simpa using h)]
  simp

theorem getD_take {α : Type} (l : List α) (n i : ℕ) (d : α) (h : i < n) :
    (l.take n).getD i d = l.getD i d := by
  by_cases hi : i < l.length
  · rw [List.getD_eq_getElem _ _ (by simp; omega), List.getD_eq_getElem _ _ hi]
    simp [List.getElem_take]
  · rw [List.getD_eq_default _ _ (by simp; omega), List.getD_eq_default _ _ (by omega)]

/-! ### Facts about the callback -/

theorem srcFramesNeeded_rate_one (frames : ℕ) : srcFramesNeeded frames 1 = frames + 4 := by
  rw [srcFramesNeeded, max_eq_right (by norm_num)]
  simp

theorem srcFramesNeeded_pos (frames : ℕ) (rate : ℚ) : 0 < srcFramesNeeded frames rate := by
  rw [srcFramesNeeded]; omega

/-- In every branch of the callback, the block written to `outdata` has
exactly `frames` rows. -/
theorem callback_outdata_length (frames : ℕ) (inp : CallbackInput) :
    (TrackPlayerSD.callback frames inp).outdata.length = frames := by
  rw [TrackPlayerSD.callback]
  repeat' split
  all_goals simp only [zerosBlock]
  all_goals (try split)
  all_goals simp

/-- When the stop flag is clear, the rate is exactly 1.0, the file and the
stream have the same channel count, and at least `frames` source frames
remain, the callback writes the first `frames` source frames scaled by the
track volume (lines 465-467 and 480). -/
theorem callback_rate_one_block (frames : ℕ) (inp : CallbackInput)
    (hstop : inp.stopFlag = false) (hrate : inp.rate = 1)
    (hch : inp.srcChannels = inp.channels)
    (hrows : ∀ row ∈ inp.fileRemaining, row.length = inp.channels)
    (hlen : frames ≤ inp.fileRemaining.length) (hpos : 0 < frames) :
    (TrackPlayerSD.callback frames inp).outdata
      = (inp.fileRemaining.take frames).map (fun row => row.map (fun q => inp.vol * q)) := by
  have hsrcge : frames ≤ (inp.fileRemaining.take (srcFramesNeeded frames 1)).length := by
    rw [List.length_take, srcFramesNeeded_rate_one]; omega
  have hne : (inp.fileRemaining.take (srcFramesNeeded frames 1)).isEmpty = false := by
    have h0 : (inp.fileRemaining.take (srcFramesNeeded frames 1)).length ≠ 0 := by omega
    cases h : inp.fileRemaining.take (srcFramesNeeded frames 1) with
    | nil => rw [h] at h0; simp at h0
    | cons a t => rfl
  rw [TrackPlayerSD.callback, hstop]
  simp only [Bool.false_eq_true, if_false, hrate, hne, ge_iff_le, if_pos hsrcge,
    eq_self_iff_true, if_true]
  calc
    (List.range frames).map (fun i => (List.range inp.channels).map (fun ch =>
        if ch < inp.srcChannels then
          inp.vol * (((inp.fileRemaining.take (srcFramesNeeded frames 1)).getD i []).getD ch 0)
        else 0))
      = (List.range frames).map
          (fun i => (inp.fileRemaining.getD i []).map (fun q => inp.vol * q)) := by
        apply List.map_congr_left
        intro i hi
        rw [List.mem_range] at hi
        have hilen : i < inp.fileRemaining.length := lt_of_lt_of_le hi hlen
        have hgetD : (inp.fileRemaining.take (srcFramesNeeded frames 1)).getD i []
            = inp.fileRemaining.getD i [] := by
          apply getD_take
          rw [srcFramesNeeded_rate_one]
          omega
        rw [hgetD]
        have hmem : inp.fileRemaining.getD i [] ∈ inp.fileRemaining := by
          rw [List.getD_eq_getElem _ _ hilen]
          exact List.getElem_mem hilen
        have hrowlen : (inp.fileRemaining.getD i []).length = inp.channels := hrows _ hmem
        calc
          (List.range inp.channels).map (fun ch =>
              if ch < inp.srcChannels then
                inp.vol * ((inp.fileRemaining.getD i []).getD ch 0)
              else 0)
            = (List.range inp.channels).map (fun ch =>
                inp.vol * ((inp.fileRemaining.getD i []).getD ch 0)) := by
              apply List.map_congr_left
              intro ch hch'
              rw [List.mem_range] at hch'
              rw [if_pos (hch ▸ hch')]
          _ = ((List.range (inp.fileRemaining.getD i []).length).map
                (fun ch => (inp.fileRemaining.getD i []).getD ch 0)).map
                (fun q => inp.vol * q) := by
              rw [List.map_map, hrowlen]
              rfl
          _ = (inp.fileRemaining.getD i []).map (fun q => inp.vol * q) := by
              rw [map_getD_range]
    _ = ((List.range frames).map (fun i => inp.fileRemaining.getD i [])).map
          (fun row => row.map (fun q => inp.vol * q)) := by rw [List.map_map]; rfl
    _ = (inp.fileRemaining.take frames).map (fun row => row.map (fun q => inp.vol * q)) := by
        rw [map_getD_range_take _ _ _ hlen]

/-- When the stop flag is clear and the file is not yet exhausted, the
`sf.read` call consumes `min(src_frames_needed, remaining)` source frames
(lines 458-460). -/
theorem callback_consumed (frames : ℕ) (inp : CallbackInput)
    (hstop : inp.stopFlag = false) (hne : inp.fileRemaining ≠ []) :
    (TrackPlayerSD.callback frames inp).consumed
      = min (srcFramesNeeded frames inp.rate) inp.fileRemaining.length := by
  have hlen0 : (inp.fileRemaining.take (srcFramesNeeded frames inp.rate)).length ≠ 0 := by
    rw [List.length_take]
    have h1 := srcFramesNeeded_pos frames inp.rate
    have h2 : 0 < inp.fileRemaining.length := List.length_pos.mpr hne
    omega
  have hnil : (inp.fileRemaining.take (srcFramesNeeded frames inp.rate)).isEmpty = false := by
    cases h : inp.fileRemaining.take (srcFramesNeeded frames inp.rate) with
    | nil => rw [h] at hlen0; simp at hlen0
    | cons a t => rfl
  rw [TrackPlayerSD.callback, hstop]
  simp only [Bool.false_eq_true, if_false, hnil]
  rw [List.length_take]

/-- When the stop flag is clear, the rate is not 1.0 and the file is not yet
exhausted, entry `(i, ch)` of the written block (for a channel present both
in the file and in the stream) is the volume times the linear interpolation
of the zero-extended source column at position `i / rate` (lines 471-480). -/
theorem callback_resample_entry (frames : ℕ) (inp : CallbackInput)
    (hstop : inp.stopFlag = false) (hrate : inp.rate ≠ 1)
    (hne : inp.fileRemaining ≠ []) (i : ℕ) (hi : i < frames)
    (ch : ℕ) (hch : ch < inp.channels) (hchs : ch < inp.srcChannels) :
    (((TrackPlayerSD.callback frames inp).outdata.getD i []).getD ch 0)
      = inp.vol * interpZeroExt
          (srcColumn (inp.fileRemaining.take (srcFramesNeeded frames inp.rate)) ch)
          ((i : ℚ) / inp.rate) := by
  have hlen0 : (inp.fileRemaining.take (srcFramesNeeded frames inp.rate)).length ≠ 0 := by
    rw [List.length_take]
    have h1 := srcFramesNeeded_pos frames inp.rate
    have h2 : 0 < inp.fileRemaining.length := List.length_pos.mpr hne
    omega
  have hnil : (inp.fileRemaining.take (srcFramesNeeded frames inp.rate)).isEmpty = false := by
    cases h : inp.fileRemaining.take (srcFramesNeeded frames inp.rate) with
    | nil => rw [h] at hlen0; simp at hlen0
    | cons a t => rfl
  rw [TrackPlayerSD.callback, hstop]
  simp only [Bool.false_eq_true, if_false, hnil, if_neg hrate]
  rw [getD_map_range frames i _ [] hi, getD_map_range inp.channels ch _ 0 hch, if_pos hchs]

/-! ### Claim C1

The claim states that at playback rate 1.0 the block written by the callback
equals the source frames read from the file exactly, for every requested
frame count and every source block.  This is false: the callback multiplies
the block by the track volume (line 480, set from `set_volume_db`), so any
volume other than 100% changes the samples.  The nearby true statement
(proved as `C1_rate_one_output`) is: at rate 1.0, with volume 1.0, matching
channel counts and at least `frames` source frames remaining, the written
block is exactly the first `frames` source frames. -/

/-- Concrete callback state refuting claim C1 as stated: rate 1.0 but the
track volume is 50% (a slider value of 50 passed to `set_volume_db`). -/
def c1cex : CallbackInput :=
  { stopFlag := false, rate := 1, vol := 1/2, channels := 1, srcChannels := 1,
    fileRemaining := [[1]] }

/-- Claim C1 is false as stated: at rate 1.0 with volume 50%, the callback
writes `[[1/2]]` while the source frames read from the file are `[[1]]`. -/
theorem C1_counterexample :
    (TrackPlayerSD.callback 1 c1cex).outdata ≠
      c1cex.fileRemaining.take (srcFramesNeeded 1 c1cex.rate) := by
  have hb := callback_rate_one_block 1 c1cex rfl rfl rfl
    (by intro row hr
        simp only [c1cex, List.mem_singleton] at hr
        rw [hr]; rfl)
    (by norm_num [c1cex]) (by norm_num)
  rw [hb]
  have h1 : srcFramesNeeded 1 c1cex.rate = 5 := srcFramesNeeded_rate_one 1
  rw [h1]
  have e1 : c1cex.fileRemaining.take 5 = [[(1:ℚ)]] := rfl
  have e2 : (c1cex.fileRemaining.take 1).map (fun row => row.map (fun q => c1cex.vol * q))
      = [[(1:ℚ)/2 * 1]] := rfl
  rw [e1, e2]
  intro h
  have h' : (1:ℚ)/2 * 1 = 1 := by
    injection h with h1 h2
    injection h1
  norm_num at h'

/-- Claim C1, amended: in every audio callback with rate exactly 1.0 and
volume 1.0, with the file's channel count equal to the stream's and at least
`frames` source frames remaining, the output block written by `_callback` is
exactly the first `frames` source frames read from the file. -/
theorem C1_rate_one_output (frames : ℕ) (inp : CallbackInput)
    (hstop : inp.stopFlag = false) (hrate : inp.rate = 1) (hvol : inp.vol = 1)
    (hch : inp.srcChannels = inp.channels)
    (hrows : ∀ row ∈ inp.fileRemaining, row.length = inp.channels)
    (hlen : frames ≤ inp.fileRemaining.length) (hpos : 0 < frames) :
    (TrackPlayerSD.callback frames inp).outdata = inp.fileRemaining.take frames := by
  rw [callback_rate_one_block frames inp hstop hrate hch hrows hlen hpos, hvol]
  simp

/-- Concrete unit-volume callback state used to witness `C1_rate_one_output`. -/
def c1wit : CallbackInput :=
  { stopFlag := false, rate := 1, vol := 1, channels := 2, srcChannels := 2,
    fileRemaining := [[1, 2], [3, 4], [5, 6]] }

theorem C1_rate_one_output_witness :
    (TrackPlayerSD.callback 2 c1wit).outdata = [[(1:ℚ), 2], [3, 4]] := by
  have h := C1_rate_one_output 2 c1wit rfl rfl rfl rfl
    (by intro row hr
        simp only [c1wit, List.mem_cons, List.not_mem_nil, or_false] at hr
        rcases hr with h | h | h <;> rw [h] <;> rfl)
    (by norm_num [c1wit]) (by norm_num)
  rw [h]
  rfl

/-! ### Claim C2

At a playback rate different from 1.0 the interpolation branch builds the
block from `np.arange(frames) / rate`, so the row count is `frames` for any
source length; the early-exit branches write `np.zeros((frames, ...))`.  The
claim holds. -/

/-- Claim C2: for every audio callback with playback rate different from
1.0 and every source length (including a source shorter than needed near
end-of-file, which the interpolation pads with the appended silence sample),
the block written by `_callback` has exactly the requested `frames` rows. -/
theorem C2_nonunit_rate_frame_count (frames : ℕ) (inp : CallbackInput)
    (hrate : inp.rate ≠ 1) :
    (TrackPlayerSD.callback frames inp).outdata.length = frames :=
  callback_outdata_length frames inp

/-- Callback state witnessing `C2_nonunit_rate_frame_count`: rate 1/2 and a
source of a single frame, much shorter than the 3 requested output frames. -/
def c2wit : CallbackInput :=
  { stopFlag := false, rate := 1/2, vol := 1, channels := 2, srcChannels := 2,
    fileRemaining := [[1, 1]] }

theorem C2_nonunit_rate_frame_count_witness :
    ((1:ℚ)/2 ≠ 1) ∧ (TrackPlayerSD.callback 3 c2wit).outdata.length = 3 :=
  ⟨by norm_num, C2_nonunit_rate_frame_count 3 c2wit (by norm_num [c2wit])⟩

/-! ### Claim C3

The claim states that at rate different from 1.0 the number of source
frames consumed per callback is `frames * (1/rate)`.  This is false: the
code reads (and thereby consumes) `int(np.ceil(frames / max(1e-6, rate))) + 4`
source frames — the ceiling of `frames/rate` plus a 4-frame margin — capped
by the frames remaining in the file (line 458-460).  The interpolation part
of the claim is true and is kept in the amended statement. -/

/-- Concrete callback state refuting the consumption part of claim C3:
rate 1/2 and 4 requested frames.  The claim predicts `4 / (1/2) = 8` source
frames consumed; the code consumes `ceil(4 / (1/2)) + 4 = 12`. -/
def c3cex : CallbackInput :=
  { stopFlag := false, rate := 1/2, vol := 1, channels := 1, srcChannels := 1,
    fileRemaining := List.replicate 12 [0] }

theorem c3cex_rate : c3cex.rate = 1/2 := rfl

/-- Claim C3 is false as stated: at rate 1/2 with 4 requested frames and 12
source frames available, the callback consumes 12 source frames, not
`4 / (1/2) = 8`. -/
theorem C3_counterexample :
    ((TrackPlayerSD.callback 4 c3cex).consumed : ℚ) ≠ (4 : ℚ) / c3cex.rate := by
  have hneed : srcFramesNeeded 4 c3cex.rate = 12 := by
    rw [c3cex_rate, srcFramesNeeded, max_eq_right (by norm_num)]
    norm_num
    decide
  have hc := callback_consumed 4 c3cex rfl (by simp [c3cex])
  rw [hc, hneed, c3cex_rate]
  have hlen : c3cex.fileRemaining.length = 12 := by simp [c3cex]
  rw [hlen]
  norm_num

/-- Claim C3, amended: in every audio callback with rate different from 1.0
(stop flag clear, file not yet exhausted), the number of source frames
consumed is `ceil(frames / max(1e-6, rate)) + 4` — the output frame count
scaled by `1/rate`, rounded up, plus a 4-frame margin — capped by the frames
remaining; and each output channel entry is the track volume times the
linear interpolation of the zero-extended source column at position
`i / rate`, for `i = 0, ..., frames-1`. -/
theorem C3_consumption_and_interpolation (frames : ℕ) (inp : CallbackInput)
    (hstop : inp.stopFlag = false) (hrate : inp.rate ≠ 1)
    (hne : inp.fileRemaining ≠ []) :
    (TrackPlayerSD.callback frames inp).consumed
        = min (srcFramesNeeded frames inp.rate) inp.fileRemaining.length ∧
    ∀ i < frames, ∀ ch < inp.channels, ch < inp.srcChannels →
      (((TrackPlayerSD.callback frames inp).outdata.getD i []).getD ch 0)
        = inp.vol * interpZeroExt
            (srcColumn (inp.fileRemaining.take (srcFramesNeeded frames inp.rate)) ch)
            ((i : ℚ) / inp.rate) := by
  refine ⟨callback_consumed frames inp hstop hne, ?_⟩
  intro i hi ch hch hchs
  exact callback_resample_entry frames inp hstop hrate hne i hi ch hch hchs

/-- Callback state witnessing `C3_consumption_and_interpolation`: rate 1/2,
one requested frame, a single source frame `[[2]]`. -/
def c3wit : CallbackInput :=
  { stopFlag := false, rate := 1/2, vol := 1, channels := 1, srcChannels := 1,
    fileRemaining := [[2]] }

theorem C3_consumption_and_interpolation_witness :
    (TrackPlayerSD.callback 1 c3wit).consumed = 1 ∧
    (((TrackPlayerSD.callback 1 c3wit).outdata.getD 0 []).getD 0 0) = 2 := by
  have h := C3_consumption_and_interpolation 1 c3wit rfl (by norm_num [c3wit])
    (by simp [c3wit])
  constructor
  · rw [h.1]
    have : c3wit.fileRemaining.length = 1 := rfl
    rw [this]
    exact Nat.min_eq_right (by have := srcFramesNeeded_pos 1 c3wit.rate; omega)
  · have h2 := h.2 0 (by norm_num) 0 (by norm_num [c3wit]) (by norm_num [c3wit])
    rw [h2]
    have hcol : srcColumn (c3wit.fileRemaining.take (srcFramesNeeded 1 c3wit.rate)) 0
        = [2] := by
      have hneed : srcFramesNeeded 1 c3wit.rate = 6 := by
        rw [srcFramesNeeded, show c3wit.rate = 1/2 from rfl,
          max_eq_right (by norm_num)]
        norm_num
        decide
      rw [hneed]
      rfl
    rw [hcol]
    have hx : ((0:ℕ) : ℚ) / c3wit.rate = 0 := by norm_num
    rw [hx, interpZeroExt]
    norm_num [c3wit]

/-! ### Timeline, track player seek, and the UI tick step

Embedding of `Timeline.set_position` / `Timeline.set_duration`
(lines 605-613), `TrackPlayerSD.seek` (lines 495-502) and
`MainWindow.ui_tick` (lines 1270-1302).  The pulse-animation fields of the
timeline (`pulse_phase`, `loop_pulse_active`, `prog_pulse_active`) are pure
rendering state read by `paintEvent` only; no claim concerns them and they
are omitted. -/

/-- State of the `Timeline` widget relevant to loop handling. -/
structure TimelineState where
  duration : ℚ
  position : ℚ
  loop_start : ℚ
  loop_end : ℚ

namespace Timeline

/-- Model of `Timeline.set_position` (lines 611-613):
`self.position = max(0.0, min(pos, self.duration))`. -/
def set_position (t : TimelineState) (pos : ℚ) : TimelineState :=
  { t with position := max 0 (min pos t.duration) }

/-- Model of `Timeline.set_duration` (lines 605-609):
`self.duration = max(1.0, d)`, then pull `loop_end` down to the new
duration when it exceeds it. -/
def set_duration (t : TimelineState) (d : ℚ) : TimelineState :=
  { t with duration := max 1 d,
           loop_end := if max 1 d < t.loop_end then max 1 d else t.loop_end }

end Timeline

/-- Python `int()` truncation toward zero on a rational. -/
def pyInt (q : ℚ) : ℤ := if 0 ≤ q then ⌊q⌋ else ⌈q⌉

/-- Per-track player state relevant to the transport claims: the reported
position and duration (seconds), the file samplerate, and the sound-file
read pointer (frames). -/
structure PlayerState where
  position : ℚ
  duration : ℚ
  samplerate : ℚ
  filePos : ℤ

namespace TrackPlayerSD

/-- Model of `TrackPlayerSD.seek` (lines 495-502): move the sound-file
pointer to `int(seconds * samplerate)` and record `position = seconds`. -/
def seek (p : PlayerState) (seconds : ℚ) : PlayerState :=
  { p with filePos := pyInt (seconds * p.samplerate), position := seconds }

end TrackPlayerSD

/-- The `MainWindow` state read and written by `ui_tick`. -/
structure UiState where
  players : List PlayerState
  timeline : TimelineState
  loopOn : Bool

/-- Position of `track_players[0]` (`get_time_pos`), 0 when there is none. -/
def firstPosition (ps : List PlayerState) : ℚ :=
  match ps with
  | [] => 0
  | p :: _ => p.position

/-- Duration of `track_players[0]` (`get_duration`), 0 when there is none. -/
def firstDuration (ps : List PlayerState) : ℚ :=
  match ps with
  | [] => 0
  | p :: _ => p.duration

namespace MainWindow

/-- Shallow embedding of `MainWindow.ui_tick` (lines 1270-1302):

* with no track players, return after the pulse bookkeeping;
* read `pos` from the first player, `self.timeline.set_position(pos)`;
* when loop is on, `loop_start <= pos <= loop_end` holds (`inside_loop`)
  and `pos >= loop_end - 0.02`, seek every player to `loop_start` and set
  the timeline position to `loop_start` (lines 1287-1295);
* finally re-read the first player's duration and, when positive, apply
  `set_duration` (lines 1297-1302). -/
def ui_tick (s : UiState) : UiState :=
  if s.players.isEmpty then s
  else
    let pos := firstPosition s.players
    let t1 := Timeline.set_position s.timeline pos
    let step :=
      if s.loopOn ∧ (t1.loop_start ≤ pos ∧ pos ≤ t1.loop_end) then
        if t1.loop_end - 1/50 ≤ pos then
          (s.players.map (fun p => TrackPlayerSD.seek p t1.loop_start),
           Timeline.set_position t1 t1.loop_start)
        else (s.players, t1)
      else (s.players, t1)
    let t3 := if 0 < firstDuration s.players then
        Timeline.set_duration step.2 (firstDuration s.players)
      else step.2
    { s with players := step.1, timeline := t3 }

end MainWindow

/-! ### Claim C4

The claim states that whenever loop mode is on and the reference (first)
track's position crosses the loop end, `ui_tick` seeks every player to the
loop start.  This is false for a position that has already passed `loop_end`
when the tick fires: the wrap branch requires `inside_loop`, i.e.
`loop_start <= pos <= loop_end` (line 1284), so a position strictly beyond
`loop_end` — which crossing the loop end between 80 ms ticks produces — is
left alone.  The wrap only fires for `loop_end - 0.02 <= pos <= loop_end`. -/

/-- Concrete `ui_tick` state refuting claim C4 as stated: loop is on,
the reference position 5.1 has crossed the loop end 5, yet the tick seeks
nothing. -/
def c4cex : UiState :=
  { players := [{ position := 51/10, duration := 10, samplerate := 48000, filePos := 0 }],
    timeline := { duration := 10, position := 0, loop_start := 1, loop_end := 5 },
    loopOn := true }

/-- Claim C4 is false as stated: in `c4cex` the loop is on and the first
player's position 5.1 has crossed the loop end 5, but after `ui_tick` the
player still sits at 5.1, not at the loop start 1. -/
theorem C4_counterexample :
    c4cex.loopOn = true ∧
    c4cex.timeline.loop_end ≤ firstPosition c4cex.players ∧
    (MainWindow.ui_tick c4cex).players.map (fun p => p.position)
      ≠ [c4cex.timeline.loop_start] := by
  refine ⟨rfl, by norm_num [c4cex, firstPosition], ?_⟩
  have hplayers : (MainWindow.ui_tick c4cex).players = c4cex.players := by
    rw [MainWindow.ui_tick]
    norm_num [c4cex, firstPosition, firstDuration, Timeline.set_position,
      Timeline.set_duration]
  rw [hplayers]
  simp only [c4cex, List.map_cons, List.map_nil, ne_eq, List.cons.injEq, and_true]
  intro h
  norm_num at h

/-- Claim C4, amended: whenever loop mode is enabled and the reference
track's reported position lies in the wrap window
`loop_end - 0.02 <= pos <= loop_end` (so in particular inside the loop),
the UI tick step seeks every track player to the shared loop start and sets
the timeline position to the loop start. -/
theorem C4_loop_wrap (s : UiState) (p0 : PlayerState) (rest : List PlayerState)
    (hp : s.players = p0 :: rest) (hloop : s.loopOn = true)
    (h1 : s.timeline.loop_start ≤ p0.position)
    (h2 : p0.position ≤ s.timeline.loop_end)
    (h3 : s.timeline.loop_end - 1/50 ≤ p0.position)
    (h4 : 0 ≤ s.timeline.loop_start)
    (h5 : s.timeline.loop_start ≤ s.timeline.duration) :
    (MainWindow.ui_tick s).players
        = s.players.map (fun p => TrackPlayerSD.seek p s.timeline.loop_start) ∧
    (MainWindow.ui_tick s).timeline.position = s.timeline.loop_start := by
  have hne : s.players.isEmpty = false := by rw [hp]; rfl
  have hfp : firstPosition s.players = p0.position := by rw [hp]; rfl
  rw [MainWindow.ui_tick]
  simp only [hne, Bool.false_eq_true, if_false, hfp, Timeline.set_position]
  have hcond : (s.loopOn = true) ∧
      (s.timeline.loop_start ≤ p0.position ∧ p0.position ≤ s.timeline.loop_end) :=
    ⟨hloop, h1, h2⟩
  rw [if_pos hcond, if_pos h3]
  refine ⟨rfl, ?_⟩
  have hclamp : (0:ℚ) ⊔ s.timeline.loop_start ⊓ s.timeline.duration
      = s.timeline.loop_start := by
    rw [inf_eq_min, sup_eq_max, min_eq_left h5, max_eq_right h4]
  split
  · simp [Timeline.set_duration, hclamp]
  · simp [hclamp]

/-- Concrete wrap-window state (position 4.99, loop `[1, 5]`) used to
witness `C4_loop_wrap`. -/
def c4wit : UiState :=
  { players := [{ position := 499/100, duration := 10, samplerate := 48000, filePos := 0 }],
    timeline := { duration := 10, position := 499/100, loop_start := 1, loop_end := 5 },
    loopOn := true }

theorem C4_loop_wrap_witness :
    (MainWindow.ui_tick c4wit).players.map (fun p => p.position) = [1] ∧
    (MainWindow.ui_tick c4wit).timeline.position = 1 := by
  have h := C4_loop_wrap c4wit
    { position := 499/100, duration := 10, samplerate := 48000, filePos := 0 } [] rfl rfl
    (by norm_num [c4wit]) (by norm_num [c4wit]) (by norm_num [c4wit])
    (by norm_num [c4wit]) (by norm_num [c4wit])
  constructor
  · rw [h.1]
    simp [c4wit, TrackPlayerSD.seek]
  · rw [h.2]
    rfl

/-! ### Claim C5

The claim states that `on_play` plays a count-in of N metronome ticks
spaced `60/BPM` seconds apart before issuing the `play(start_pos)` calls.
The code of `MainWindow.on_play` (lines 1160-1183) does no such thing: it
applies per-track settings and immediately calls `tp.play(start_pos=start)`
on every player.  `TickPlayer.play_tick` (lines 567-584) is never invoked
by any transport path in this file, even though the BPM spinner, the
"Tick Enabled" checkbox and the tick-volume control all exist and are
persisted — the count-in machinery is declared but dead, so the code
contradicts its own UI declarations and the claim records the intent. -/

/-- One externally visible action of the transport start: a metronome tick
(`TickPlayer.play_tick`), the application of one track row's settings
(device, rate, volume; lines 1167-1176), or a `play(start_pos)` call to one
track player (lines 1178-1182). -/
inductive TransportEvent where
  | applyTrackSettings (idx : ℕ)
  | playTick
  | playTrack (idx : ℕ) (startPos : ℚ)
  deriving DecidableEq

namespace MainWindow

/-- Shallow embedding of `MainWindow.on_play` (lines 1160-1183) as the list
of actions it performs in order: nothing when there are no track players;
otherwise `start` is the loop start when "Loop On" is checked and 0.0
otherwise, each row's settings are applied, and then every player receives
`play(start_pos=start)`.  No tick is ever played.  (The trailing
`timeline.set_position(start)` touches only the widget and is omitted.) -/
def on_play (numTracks : ℕ) (loopChecked : Bool) (loopStart : ℚ) : List TransportEvent :=
  if numTracks = 0 then []
  else
    ((List.range numTracks).map TransportEvent.applyTrackSettings) ++
    ((List.range numTracks).map (fun i =>
      TransportEvent.playTrack i (if loopChecked then loopStart else 0)))

end MainWindow

/-- Claim C5 evaluated at the failing input (two loaded tracks, loop off):
`on_play` issues `play(0.0)` to both players but plays no count-in tick at
all, contradicting the claimed N-tick count-in before the play calls. -/
theorem C5_no_count_in :
    TransportEvent.playTick ∉ MainWindow.on_play 2 false 0 ∧
    TransportEvent.playTrack 0 0 ∈ MainWindow.on_play 2 false 0 ∧
    TransportEvent.playTrack 1 0 ∈ MainWindow.on_play 2 false 0 := by
  decide

/-! ### Claim C6

Embedding of the settings document that `MainWindow.on_save`
(lines 1243-1265) serializes to `<folder>/multitrack_config.json`, over an
explicit JSON value type so that the key structure of the document is
visible.  Python `dict` insertion is modelled by `dictSet` (replace in
place, else append), matching insertion-ordered `dict` semantics. -/

/-- JSON values; objects are insertion-ordered key-value lists. -/
inductive JVal where
  | str (s : String)
  | num (q : ℚ)
  | bool (b : Bool)
  | null
  | arr (xs : List JVal)
  | obj (fields : List (String × JVal))

/-- Python `d[k] = v` on an insertion-ordered association list. -/
def dictSet (d : List (String × JVal)) (k : String) (v : JVal) :
    List (String × JVal) :=
  if d.any (fun kv => kv.1 == k) then
    d.map (fun kv => if kv.1 = k then (k, v) else kv)
  else d ++ [(k, v)]

/-- First binding of key `k` in an association list (each key occurs at
most once in a list built with `dictSet`, so this is `d[k]`). -/
def lookupField (fs : List (String × JVal)) (k : String) : Option JVal :=
  match fs with
  | [] => none
  | (k', v) :: rest => if k' = k then some v else lookupField rest k

/-- Lookup of key `k` in a JSON object. -/
def jLookup (j : JVal) (k : String) : Option JVal :=
  match j with
  | JVal.obj fs => lookupField fs k
  | _ => none

/-- Keys of a JSON object, in order. -/
def jKeys (j : JVal) : List String :=
  match j with
  | JVal.obj fs => fs.map Prod.fst
  | _ => []

mutual
/-- Every string occurring anywhere in a JSON value (keys included). -/
def collectStrings : JVal → List String
  | JVal.str s => [s]
  | JVal.num _ => []
  | JVal.bool _ => []
  | JVal.null => []
  | JVal.arr xs => collectStringsList xs
  | JVal.obj fs => collectStringsFields fs
def collectStringsList : List JVal → List String
  | [] => []
  | x :: xs => collectStrings x ++ collectStringsList xs
def collectStringsFields : List (String × JVal) → List String
  | [] => []
  | (k, v) :: fs => k :: (collectStrings v ++ collectStringsFields fs)
end

theorem lookupField_map_set (d : List (String × JVal)) (k : String) (v : JVal)
    (h : d.any (fun kv => kv.1 == k) = true) :
    lookupField (d.map (fun kv => if kv.1 = k then (k, v) else kv)) k = some v := by
  induction d with
  | nil => simp at h
  | cons x d ih =>
    rw [List.map_cons, lookupField]
    by_cases hx : x.1 = k
    · rw [if_pos hx]
      simp
    · rw [if_neg hx]
      rw [if_neg hx]
      apply ih
      simp only [List.any_cons, Bool.or_eq_true] at h
      rcases h with h | h
      · exact absurd (by simpa using h) hx
      · exact h

theorem lookupField_append_new (d : List (String × JVal)) (k : String) (v : JVal)
    (h : d.any (fun kv => kv.1 == k) = false) :
    lookupField (d ++ [(k, v)]) k = some v := by
  induction d with
  | nil => simp [lookupField]
  | cons x d ih =>
    simp only [List.any_cons, Bool.or_eq_false_iff] at h
    rw [List.cons_append, lookupField]
    rw [if_neg (by simpa using h.1)]
    exact ih h.2

theorem lookupField_map_set_ne (d : List (String × JVal)) (k : String) (v : JVal)
    (k' : String) (h : k' ≠ k) :
    lookupField (d.map (fun kv => if kv.1 = k then (k, v) else kv)) k'
      = lookupField d k' := by
  induction d with
  | nil => rfl
  | cons x d ih =>
    rw [List.map_cons, lookupField, lookupField]
    by_cases hx : x.1 = k
    · rw [if_pos hx, if_neg (show ¬ k = k' from Ne.symm h),
        if_neg (show ¬ x.1 = k' from hx ▸ Ne.symm h)]
      exact ih
    · rw [if_neg hx]
      by_cases hx' : x.1 = k'
      · simp only [if_pos hx']
      · simp only [if_neg hx']
        exact ih

theorem lookupField_append_ne (d : List (String × JVal)) (k : String) (v : JVal)
    (k' : String) (h : k' ≠ k) :
    lookupField (d ++ [(k, v)]) k' = lookupField d k' := by
  induction d with
  | nil =>
    simp only [List.nil_append, lookupField]
    rw [if_neg (Ne.symm h)]
  | cons x d ih =>
    simp only [List.cons_append, lookupField]
    by_cases hx' : x.1 = k'
    · simp only [if_pos hx']
    · simp only [if_neg hx']
      exact ih

/-- `d[k] = v` followed by `d[k]` yields `v`. -/
theorem lookupField_dictSet_self (d : List (String × JVal)) (k : String) (v : JVal) :
    lookupField (dictSet d k v) k = some v := by
  rw [dictSet]
  cases h : d.any (fun kv => kv.1 == k) with
  | true => rw [if_pos rfl]; exact lookupField_map_set d k v h
  | false => rw [if_neg Bool.false_ne_true]; exact lookupField_append_new d k v h

/-- `d[k] = v` does not change the binding of any other key. -/
theorem lookupField_dictSet_ne (d : List (String × JVal)) (k : String) (v : JVal)
    (k' : String) (h : k' ≠ k) :
    lookupField (dictSet d k v) k' = lookupField d k' := by
  rw [dictSet]
  cases hany : d.any (fun kv => kv.1 == k) with
  | true => rw [if_pos rfl]; exact lookupField_map_set_ne d k v k' h
  | false => rw [if_neg Bool.false_ne_true]; exact lookupField_append_ne d k v k' h

/-- Per-track UI row state read by `on_save`: the file name used as the
JSON key, the selected sink (the combo box's current data, possibly
`None`), and the volume slider value. -/
structure RowState where
  filename : String
  sink : Option String
  volume : ℤ

/-- Project-level state read by `on_save`: the named loops, the last used
loop name, the BPM spin box value, the tick-enabled checkbox, and the
playback rate. -/
structure ProjectState where
  loop_list : List (String × ℚ × ℚ)
  current_loop_name : Option String
  bpm : ℤ
  tick_enabled : Bool
  project_playback_rate : ℚ

/-- Python `str` or `None` serialized to JSON. -/
def jsonOptStr : Option String → JVal
  | none => JVal.null
  | some s => JVal.str s

/-- The record `{'sink': ..., 'volume': ..., 'mute': False, 'solo': False}`
written for one track row (line 1251). -/
def trackEntryJson (r : RowState) : JVal :=
  JVal.obj [("sink", jsonOptStr r.sink), ("volume", JVal.num r.volume),
            ("mute", JVal.bool false), ("solo", JVal.bool false)]

/-- The loops dictionary `name -> [start, end]` (line 1253). -/
def loopsJson (loops : List (String × ℚ × ℚ)) : JVal :=
  JVal.obj (loops.map (fun nr => (nr.1, JVal.arr [JVal.num nr.2.1, JVal.num nr.2.2])))

/-- The `data['_global']` record written by `on_save` (lines 1252-1258):
loops, last used loop, BPM, tick-enabled flag and playback rate — and
nothing else.  (The tick file path and the tick volume are written to the
separate `~/.config/multitrack_player/config.json` by `save_global_config`;
see `on_tick_vol_changed`, lines 1235-1238.) -/
def globalEntryJson (st : ProjectState) : JVal :=
  JVal.obj [("loops", loopsJson st.loop_list),
            ("last_used_loop", jsonOptStr st.current_loop_name),
            ("bpm", JVal.num st.bpm),
            ("tick_enabled", JVal.bool st.tick_enabled),
            ("playback_rate", JVal.num st.project_playback_rate)]

/-- Shallow embedding of the document built by `MainWindow.on_save`
(lines 1247-1258): `data = {}`, then `data[filename] = {...}` for each
track row in order, then `data['_global'] = {...}`. -/
def on_save_doc (rows : List RowState) (st : ProjectState) : JVal :=
  JVal.obj (dictSet
    (rows.foldl (fun d r => dictSet d r.filename (trackEntryJson r)) [])
    "_global" (globalEntryJson st))

/-- Looking up a key in the row part of the saved document either finds the
entry of some row carrying that filename, or falls through unchanged. -/
theorem foldl_rows_lookup (rows : List RowState) (d : List (String × JVal))
    (k : String) :
    (∃ e ∈ rows, e.filename = k ∧
      lookupField (rows.foldl (fun d r => dictSet d r.filename (trackEntryJson r)) d) k
        = some (trackEntryJson e)) ∨
    ((∀ e ∈ rows, e.filename ≠ k) ∧
      lookupField (rows.foldl (fun d r => dictSet d r.filename (trackEntryJson r)) d) k
        = lookupField d k) := by
  induction rows generalizing d with
  | nil => right; exact ⟨by simp, rfl⟩
  | cons r rows ih =>
    rw [List.foldl_cons]
    rcases ih (dictSet d r.filename (trackEntryJson r)) with ⟨e, he, hfn, hl⟩ | ⟨hall, hl⟩
    · exact Or.inl ⟨e, List.mem_cons_of_mem r he, hfn, hl⟩
    · by_cases hk : r.filename = k
      · left
        refine ⟨r, List.mem_cons_self r rows, hk, ?_⟩
        rw [hl, hk, lookupField_dictSet_self]
      · right
        refine ⟨?_, ?_⟩
        · intro e he
          rcases List.mem_cons.mp he with rfl | he'
          · exact hk
          · exact hall e he'
        · rw [hl, lookupField_dictSet_ne d r.filename (trackEntryJson r) k (Ne.symm hk)]

/-- Claim C6, amended: the document written by Save maps each track
filename (other than the reserved `_global`) to a record with exactly the
keys `sink, volume, mute, solo`, and contains a `_global` record with
exactly the keys `loops` (the name -> `[start, end]` loop dictionary),
`last_used_loop`, `bpm`, `tick_enabled` and `playback_rate`.  The tick file
path and tick volume are not part of the project document — they are kept
in the separate global config file. -/
theorem C6_save_document_shape (rows : List RowState) (st : ProjectState) :
    jLookup (on_save_doc rows st) "_global" = some (globalEntryJson st) ∧
    jKeys (globalEntryJson st)
      = ["loops", "last_used_loop", "bpm", "tick_enabled", "playback_rate"] ∧
    ∀ r ∈ rows, r.filename ≠ "_global" →
      ∃ e ∈ rows, e.filename = r.filename ∧
        jLookup (on_save_doc rows st) r.filename = some (trackEntryJson e) ∧
        jKeys (trackEntryJson e) = ["sink", "volume", "mute", "solo"] := by
  refine ⟨?_, rfl, ?_⟩
  · rw [on_save_doc, jLookup, lookupField_dictSet_self]
  · intro r hr hne
    have hstep : jLookup (on_save_doc rows st) r.filename
        = lookupField (rows.foldl (fun d r => dictSet d r.filename (trackEntryJson r)) []) r.filename := by
      rw [on_save_doc, jLookup]
      exact lookupField_dictSet_ne _ _ _ _ hne
    rcases foldl_rows_lookup rows [] r.filename with ⟨e, he, hfn, hl⟩ | ⟨hall, _⟩
    · exact ⟨e, he, hfn, by rw [hstep, hl], rfl⟩
    · exact absurd rfl (hall r hr)

/-- Concrete save state: one track row, one loop, BPM 120.  In the claimed
scenario the global config holds tick file `"click.wav"` and tick volume
70; neither value reaches the project document. -/
def c6rows : List RowState :=
  [{ filename := "drums.wav", sink := some "hdmi-sink", volume := 90 }]

/-- Project state accompanying `c6rows`. -/
def c6st : ProjectState :=
  { loop_list := [("verse", (2, 11/2))], current_loop_name := some "verse",
    bpm := 120, tick_enabled := true, project_playback_rate := 1 }

/-- Claim C6 is false as stated: the `_global` record of the saved
document has exactly the keys `loops, last_used_loop, bpm, tick_enabled,
playback_rate` — no tick-file and no tick-volume entry — and the tick file
path `"click.wav"` configured in the app does not occur anywhere in the
document. -/
theorem C6_counterexample :
    jKeys ((jLookup (on_save_doc c6rows c6st) "_global").getD JVal.null)
      = ["loops", "last_used_loop", "bpm", "tick_enabled", "playback_rate"] ∧
    "tick_file" ∉ jKeys ((jLookup (on_save_doc c6rows c6st) "_global").getD JVal.null) ∧
    "tick_volume" ∉ jKeys ((jLookup (on_save_doc c6rows c6st) "_global").getD JVal.null) ∧
    "click.wav" ∉ collectStrings (on_save_doc c6rows c6st) := by
  decide

theorem C6_save_document_shape_witness :
    jLookup (on_save_doc c6rows c6st) "_global" = some (globalEntryJson c6st) ∧
    jLookup (on_save_doc c6rows c6st) "drums.wav"
      = some (trackEntryJson
          { filename := "drums.wav", sink := some "hdmi-sink", volume := 90 }) := by
  have h := C6_save_document_shape c6rows c6st
  refine ⟨h.1, ?_⟩
  obtain ⟨e, he, hfn, hlook, -⟩ :=
    h.2.2 { filename := "drums.wav", sink := some "hdmi-sink", volume := 90 }
      (by rw [c6rows]; exact List.mem_cons_self _ _) (by decide)
  have he' : e = { filename := "drums.wav", sink := some "hdmi-sink", volume := 90 } := by
    simpa [c6rows] using he
  rw [he'] at hlook
  exact hlook

/-! ### Claim C7

The claim states that the project settings file is written both on "Save"
and on window close.  The code of `MainWindow.closeEvent` (lines 1311-1318)
stops the players and calls `save_global_config(self.global_cfg)` — it
writes only `~/.config/multitrack_player/config.json` and never the
per-project `<folder>/multitrack_config.json`; only `on_save`
(lines 1243-1265) writes the project file. -/

/-- Externally visible file-system and dialog actions of the two handlers. -/
inductive AppEffect where
  | stopTrack (idx : ℕ)
  | writeProjectConfig (folder : String)
  | writeGlobalConfig
  | showMessage (text : String)
  deriving DecidableEq

/-- Recognizes a write of `<folder>/multitrack_config.json`. -/
def isProjectWrite : AppEffect → Bool
  | AppEffect.writeProjectConfig _ => true
  | _ => false

namespace MainWindow

/-- Shallow embedding of `MainWindow.closeEvent` (lines 1311-1318) as its
action list: stop every track player, then save the global config. -/
def closeEvent (numTracks : ℕ) : List AppEffect :=
  ((List.range numTracks).map AppEffect.stopTrack) ++ [AppEffect.writeGlobalConfig]

/-- Shallow embedding of the actions of `MainWindow.on_save`
(lines 1243-1265): with no folder open only an info dialog; otherwise write
`<folder>/multitrack_config.json`, save the global config, and confirm. -/
def on_save_effects (currentFolder : Option String) : List AppEffect :=
  match currentFolder with
  | none => [AppEffect.showMessage "No folder opened"]
  | some folder =>
      [AppEffect.writeProjectConfig folder, AppEffect.writeGlobalConfig,
       AppEffect.showMessage "Settings saved (project + global)."]

end MainWindow

/-- Claim C7 is false as stated: closing the window (here with 3 loaded
tracks) performs no project-config write at all. -/
theorem C7_counterexample :
    (MainWindow.closeEvent 3).any isProjectWrite = false := by
  decide

/-- Claim C7, amended: the per-project settings file is written only when
the user presses "Save" with a folder open; closing the window stops the
players and persists only the global config file
(`~/.config/multitrack_player/config.json`), never the project settings. -/
theorem C7_project_write_only_on_save (numTracks : ℕ) (folder : String) :
    (MainWindow.closeEvent numTracks).any isProjectWrite = false ∧
    AppEffect.writeGlobalConfig ∈ MainWindow.closeEvent numTracks ∧
    AppEffect.writeProjectConfig folder ∈ MainWindow.on_save_effects (some folder) := by
  refine ⟨?_, ?_, by rw [MainWindow.on_save_effects]; exact List.mem_cons_self _ _⟩
  · rw [MainWindow.closeEvent, List.any_append]
    have h1 : ((List.range numTracks).map AppEffect.stopTrack).any isProjectWrite = false := by
      apply List.any_eq_false.mpr
      intro x hx
      obtain ⟨i, -, rfl⟩ := List.mem_map.mp hx
      simp [isProjectWrite]
    rw [h1]
    rfl
  · rw [MainWindow.closeEvent]
    exact List.mem_append_right _ (List.mem_cons_self _ _)

/-! ### Claim C8

When sounddevice/soundfile are missing, the module-level `try/except`
imports set `SD_AVAILABLE`/`SF_AVAILABLE` to `False` (lines 35-45), `main`
(lines 1323-1331) prints a warning per missing library and still builds and
shows the window, and inside `load_tracks` every `TrackPlayerSD(...)`
construction is wrapped in `try/except` that prints one diagnostic line and
continues (lines 1035-1046), leaving that track without a player. -/

/-- The observable actions of `main` (lines 1323-1331). -/
inductive MainEvent where
  | warnNoSounddevice
  | warnNoSoundfile
  | startGui
  deriving DecidableEq

/-- Shallow embedding of `main` (lines 1323-1331): warn for each missing
library, then unconditionally construct the application and show the
window. -/
def main_events (sdAvailable sfAvailable : Bool) : List MainEvent :=
  (if sdAvailable then [] else [MainEvent.warnNoSounddevice]) ++
  (if sfAvailable then [] else [MainEvent.warnNoSoundfile]) ++
  [MainEvent.startGui]

/-- Shallow embedding of `TrackPlayerSD.__init__` / `_open_file`
(lines 275-290): fail with `"soundfile not installed"` when the soundfile
library is unavailable; otherwise defer to opening the file (abstracted by
`openFile`), wrapping any failure in the `Unable to open audio file`
message. -/
def trackPlayerInit (sfAvailable : Bool)
    (openFile : String → Except String PlayerState) (path : String) :
    Except String PlayerState :=
  if sfAvailable = false then Except.error "soundfile not installed"
  else
    match openFile path with
    | Except.ok p => Except.ok p
    | Except.error e =>
        Except.error ("Unable to open audio file " ++ path ++ ": " ++ e)

/-- One iteration of the `load_tracks` loop over files (lines 1027-1046):
a successful construction appends the player; a failure is caught and adds
one printed diagnostic line. -/
def load_step (mk : String → Except String PlayerState)
    (acc : List PlayerState × List String) (f : String) :
    List PlayerState × List String :=
  match mk f with
  | Except.ok p => (acc.1 ++ [p], acc.2)
  | Except.error e =>
      (acc.1, acc.2 ++ ["[AudioRouting] Failed to init TrackPlayerSD for " ++ f ++ ": " ++ e])

/-- Shallow embedding of the player-construction part of
`MainWindow.load_tracks` (lines 1013-1046): the resulting player list and
the printed diagnostic lines.  The function is total: no exception
propagates out of the loop. -/
def load_tracks (files : List String)
    (mk : String → Except String PlayerState) : List PlayerState × List String :=
  files.foldl (load_step mk) ([], [])

theorem load_step_error (mk : String → Except String PlayerState)
    (acc : List PlayerState × List String) (f : String) (e : String)
    (h : mk f = Except.error e) :
    load_step mk acc f
      = (acc.1, acc.2 ++ ["[AudioRouting] Failed to init TrackPlayerSD for " ++ f ++ ": " ++ e]) := by
  rw [load_step, h]

theorem load_tracks_all_fail (files : List String)
    (mk : String → Except String PlayerState) (e : String)
    (h : ∀ f, mk f = Except.error e) :
    load_tracks files mk
      = ([], files.map (fun f =>
          "[AudioRouting] Failed to init TrackPlayerSD for " ++ f ++ ": " ++ e)) := by
  rw [load_tracks]
  have aux : ∀ (fs : List String) (acc : List PlayerState × List String),
      fs.foldl (load_step mk) acc
        = (acc.1, acc.2 ++ fs.map (fun f =>
            "[AudioRouting] Failed to init TrackPlayerSD for " ++ f ++ ": " ++ e)) := by
    intro fs
    induction fs with
    | nil => intro acc; simp
    | cons f fs ih =>
      intro acc
      rw [List.foldl_cons, load_step_error mk acc f e (h f), ih, List.map_cons]
      simp
  simpa using aux files ([], [])

/-- Claim C8: with the audio backend unavailable, `main` still reaches the
GUI start after its warnings, and `load_tracks` catches every
`TrackPlayerSD` construction failure — it returns no players and exactly
one diagnostic line per file, raising nothing to the user (the embedded
function is total). -/
theorem C8_backend_missing_no_crash (files : List String)
    (openFile : String → Except String PlayerState) :
    (main_events false false).getLast? = some MainEvent.startGui ∧
    (load_tracks files (trackPlayerInit false openFile)).1 = [] ∧
    (load_tracks files (trackPlayerInit false openFile)).2.length = files.length := by
  have hmk : ∀ f, trackPlayerInit false openFile f
      = Except.error "soundfile not installed" := fun f => rfl
  have h := load_tracks_all_fail files (trackPlayerInit false openFile)
    "soundfile not installed" hmk
  refine ⟨rfl, ?_, ?_⟩
  · rw [h]
  · rw [h]
    simp

/-- Witness for `C8_backend_missing_no_crash` at two concrete files. -/
theorem C8_backend_missing_no_crash_witness :
    (main_events false false).getLast? = some MainEvent.startGui ∧
    (load_tracks ["a.wav", "b.flac"]
      (trackPlayerInit false (fun _ => Except.error "io"))).1 = [] ∧
    (load_tracks ["a.wav", "b.flac"]
      (trackPlayerInit false (fun _ => Except.error "io"))).2.length = 2 :=
  C8_backend_missing_no_crash ["a.wav", "b.flac"] (fun _ => Except.error "io")

/-! ### Claim C9

Embedding of the playback-rate buttons (lines 66-68 and 1208-1222).
`round(x, 3)` is modelled as rounding `x * 1000` to the nearest integer;
Python's float `round` can differ from this only at exact thousandth
midpoints, which play no role in the statements below (every bound proved
holds for either tie-breaking rule, and the counterexample rate 0.5006 is
not a midpoint). -/

def PLAYBACK_RATE_MIN : ℚ := 1/2

def PLAYBACK_RATE_MAX : ℚ := 3/2

def PLAYBACK_RATE_STEP : ℚ := 1/20

/-- Model of Python `round(q, 3)`. -/
def round3 (q : ℚ) : ℚ := ((round (q * 1000) : ℤ) : ℚ) / 1000

namespace MainWindow

/-- Model of `MainWindow.on_rate_plus` (lines 1208-1214):
`new = round(rate + PLAYBACK_RATE_STEP, 3)`, clamped above at
`PLAYBACK_RATE_MAX`. -/
def on_rate_plus (r : ℚ) : ℚ :=
  let new := round3 (r + PLAYBACK_RATE_STEP)
  if PLAYBACK_RATE_MAX < new then PLAYBACK_RATE_MAX else new

/-- Model of `MainWindow.on_rate_minus` (lines 1216-1222):
`new = round(rate - PLAYBACK_RATE_STEP, 3)`, clamped below at
`PLAYBACK_RATE_MIN`. -/
def on_rate_minus (r : ℚ) : ℚ :=
  let new := round3 (r - PLAYBACK_RATE_STEP)
  if new < PLAYBACK_RATE_MIN then PLAYBACK_RATE_MIN else new

end MainWindow

/-- A sequence of button presses (`true` = "+", `false` = "-") applied to
the current project playback rate. -/
def applyRatePresses (presses : List Bool) (r : ℚ) : ℚ :=
  presses.foldl (fun cur b =>
    if b then MainWindow.on_rate_plus cur else MainWindow.on_rate_minus cur) r

theorem applyRatePresses_cons (b : Bool) (ps : List Bool) (r : ℚ) :
    applyRatePresses (b :: ps) r
      = applyRatePresses ps
          (if b then MainWindow.on_rate_plus r else MainWindow.on_rate_minus r) := by
  rw [applyRatePresses, applyRatePresses, List.foldl_cons]

/-- Rounding to three decimals moves a rational by at most `1/2000`. -/
theorem round3_close (x : ℚ) : |round3 x - x| ≤ 1/2000 := by
  rw [round3]
  have h := abs_sub_round (x * 1000)
  have key : ((round (x * 1000) : ℤ) : ℚ)/1000 - x
      = -((x * 1000 - ((round (x * 1000) : ℤ) : ℚ))/1000) := by ring
  rw [key, abs_neg, abs_div, abs_of_pos (show (0:ℚ) < 1000 by norm_num)]
  have h0 := abs_nonneg (x * 1000 - ((round (x * 1000) : ℤ) : ℚ))
  linarith

/-- Rationals on the thousandth grid are fixed by `round3`. -/
theorem round3_exact (k : ℤ) : round3 ((k : ℚ)/1000) = (k : ℚ)/1000 := by
  rw [round3, div_mul_cancel₀ _ (show (1000:ℚ) ≠ 0 by norm_num), round_intCast]

theorem on_rate_plus_mem (r : ℚ)
    (h1 : PLAYBACK_RATE_MIN ≤ r) (h2 : r ≤ PLAYBACK_RATE_MAX) :
    PLAYBACK_RATE_MIN ≤ MainWindow.on_rate_plus r ∧
    MainWindow.on_rate_plus r ≤ PLAYBACK_RATE_MAX := by
  have hc := round3_close (r + 1/20)
  rw [abs_le] at hc
  simp only [MainWindow.on_rate_plus, PLAYBACK_RATE_MIN, PLAYBACK_RATE_MAX,
    PLAYBACK_RATE_STEP] at h1 h2 ⊢
  by_cases hlt : (3:ℚ)/2 < round3 (r + 1/20)
  · rw [if_pos hlt]
    constructor <;> norm_num
  · rw [if_neg hlt]
    exact ⟨by linarith [hc.1], le_of_not_lt hlt⟩

theorem on_rate_minus_mem (r : ℚ)
    (h1 : PLAYBACK_RATE_MIN ≤ r) (h2 : r ≤ PLAYBACK_RATE_MAX) :
    PLAYBACK_RATE_MIN ≤ MainWindow.on_rate_minus r ∧
    MainWindow.on_rate_minus r ≤ PLAYBACK_RATE_MAX := by
  have hc := round3_close (r - 1/20)
  rw [abs_le] at hc
  simp only [MainWindow.on_rate_minus, PLAYBACK_RATE_MIN, PLAYBACK_RATE_MAX,
    PLAYBACK_RATE_STEP] at h1 h2 ⊢
  by_cases hlt : round3 (r - 1/20) < (1:ℚ)/2
  · rw [if_pos hlt]
    constructor <;> norm_num
  · rw [if_neg hlt]
    exact ⟨le_of_not_lt hlt, by linarith [hc.2]⟩

theorem on_rate_plus_dev (r : ℚ) (h2 : r ≤ PLAYBACK_RATE_MAX) :
    |MainWindow.on_rate_plus r - r| ≤ 101/2000 := by
  have hc := round3_close (r + 1/20)
  rw [abs_le] at hc
  simp only [MainWindow.on_rate_plus, PLAYBACK_RATE_MAX, PLAYBACK_RATE_STEP] at h2 ⊢
  by_cases hlt : (3:ℚ)/2 < round3 (r + 1/20)
  · rw [if_pos hlt, abs_le]
    constructor <;> linarith [hc.1, hc.2]
  · rw [if_neg hlt, abs_le]
    constructor <;> linarith [hc.1, hc.2]

theorem on_rate_minus_dev (r : ℚ) (h1 : PLAYBACK_RATE_MIN ≤ r) :
    |MainWindow.on_rate_minus r - r| ≤ 101/2000 := by
  have hc := round3_close (r - 1/20)
  rw [abs_le] at hc
  simp only [MainWindow.on_rate_minus, PLAYBACK_RATE_MIN, PLAYBACK_RATE_STEP] at h1 ⊢
  by_cases hlt : round3 (r - 1/20) < (1:ℚ)/2
  · rw [if_pos hlt, abs_le]
    constructor <;> linarith [hc.1, hc.2]
  · rw [if_neg hlt, abs_le]
    constructor <;> linarith [hc.1, hc.2]

theorem applyRatePresses_mem (presses : List Bool) (r : ℚ)
    (h1 : PLAYBACK_RATE_MIN ≤ r) (h2 : r ≤ PLAYBACK_RATE_MAX) :
    PLAYBACK_RATE_MIN ≤ applyRatePresses presses r ∧
    applyRatePresses presses r ≤ PLAYBACK_RATE_MAX := by
  induction presses generalizing r with
  | nil => exact ⟨h1, h2⟩
  | cons b ps ih =>
    rw [applyRatePresses_cons]
    cases b with
    | true =>
      have h := on_rate_plus_mem r h1 h2
      simpa using ih (MainWindow.on_rate_plus r) h.1 h.2
    | false =>
      have h := on_rate_minus_mem r h1 h2
      simpa using ih (MainWindow.on_rate_minus r) h.1 h.2

theorem on_rate_plus_grid (r : ℚ) (k : ℤ) (hk : r = (k : ℚ)/1000)
    (h2 : r ≤ PLAYBACK_RATE_MAX) :
    |MainWindow.on_rate_plus r - r| ≤ PLAYBACK_RATE_STEP := by
  have hnew : round3 (r + 1/20) = r + 1/20 := by
    have hgrid : r + 1/20 = ((k + 50 : ℤ) : ℚ)/1000 := by
      rw [hk]
      push_cast
      ring
    rw [hgrid, round3_exact]
  simp only [MainWindow.on_rate_plus, hnew, PLAYBACK_RATE_MAX, PLAYBACK_RATE_STEP] at h2 ⊢
  by_cases hlt : (3:ℚ)/2 < r + 1/20
  · rw [if_pos hlt, abs_le]
    constructor <;> linarith
  · rw [if_neg hlt, abs_le]
    constructor <;> linarith

theorem on_rate_minus_grid (r : ℚ) (k : ℤ) (hk : r = (k : ℚ)/1000)
    (h1 : PLAYBACK_RATE_MIN ≤ r) :
    |MainWindow.on_rate_minus r - r| ≤ PLAYBACK_RATE_STEP := by
  have hnew : round3 (r - 1/20) = r - 1/20 := by
    have hgrid : r - 1/20 = ((k - 50 : ℤ) : ℚ)/1000 := by
      rw [hk]
      push_cast
      ring
    rw [hgrid, round3_exact]
  simp only [MainWindow.on_rate_minus, hnew, PLAYBACK_RATE_MIN, PLAYBACK_RATE_STEP] at h1 ⊢
  by_cases hlt : r - 1/20 < (1:ℚ)/2
  · rw [if_pos hlt, abs_le]
    constructor <;> linarith
  · rw [if_neg hlt, abs_le]
    constructor <;> linarith

/-! ### Claim C9

The clamping part of the claim holds: every press sequence keeps the rate
in `[PLAYBACK_RATE_MIN, PLAYBACK_RATE_MAX] = [0.5, 1.5]`.  The "at most
0.05 per press" part is false for a loaded rate off the thousandth grid:
`round(rate ± 0.05, 3)` can add up to `0.0005` of rounding movement on top
of the step.  At rate `0.5006` (read from `multitrack_config.json`, which
accepts any float), one "+" press yields `round(0.5506, 3) = 0.551`, a
change of `0.0504 > 0.05`. -/

/-- Claim C9 is false as stated: starting from the in-range rate `0.5006`,
a single "+" press changes the rate by `0.0504`, more than the step 0.05. -/
theorem C9_counterexample :
    PLAYBACK_RATE_MIN ≤ (5006/10000 : ℚ) ∧ (5006/10000 : ℚ) ≤ PLAYBACK_RATE_MAX ∧
    ¬ |MainWindow.on_rate_plus (5006/10000) - 5006/10000| ≤ PLAYBACK_RATE_STEP := by
  refine ⟨by rw [PLAYBACK_RATE_MIN]; norm_num, by rw [PLAYBACK_RATE_MAX]; norm_num, ?_⟩
  have hround : (round ((5006/10000 + 1/20 : ℚ) * 1000) : ℤ) = 551 := by
    norm_num [round_eq]
  have hnew : round3 (5006/10000 + PLAYBACK_RATE_STEP) = 551/1000 := by
    rw [PLAYBACK_RATE_STEP, round3, hround]
    norm_num
  have hplus : MainWindow.on_rate_plus (5006/10000) = 551/1000 := by
    simp only [MainWindow.on_rate_plus, hnew]
    rw [if_neg (show ¬ PLAYBACK_RATE_MAX < 551/1000 by rw [PLAYBACK_RATE_MAX]; norm_num)]
  rw [hplus, PLAYBACK_RATE_STEP, abs_of_pos (by norm_num)]
  norm_num

/-- Claim C9, amended: for every starting playback rate in `[0.5, 1.5]`,
every sequence of rate-plus and rate-minus presses keeps
`project_playback_rate` within `[0.5, 1.5]`; a single press changes the
rate by at most `0.05 + 0.0005 = 0.0505` in general, and by at most the
step `0.05` whenever the current rate is a multiple of `0.001` — as is
every rate the buttons themselves produce. -/
theorem C9_rate_bounds (r : ℚ)
    (h1 : PLAYBACK_RATE_MIN ≤ r) (h2 : r ≤ PLAYBACK_RATE_MAX) :
    (∀ presses : List Bool,
        PLAYBACK_RATE_MIN ≤ applyRatePresses presses r ∧
        applyRatePresses presses r ≤ PLAYBACK_RATE_MAX) ∧
    |MainWindow.on_rate_plus r - r| ≤ 101/2000 ∧
    |MainWindow.on_rate_minus r - r| ≤ 101/2000 ∧
    ((∃ k : ℤ, r = (k : ℚ)/1000) →
        |MainWindow.on_rate_plus r - r| ≤ PLAYBACK_RATE_STEP ∧
        |MainWindow.on_rate_minus r - r| ≤ PLAYBACK_RATE_STEP) := by
  refine ⟨fun presses => applyRatePresses_mem presses r h1 h2,
    on_rate_plus_dev r h2, on_rate_minus_dev r h1, ?_⟩
  rintro ⟨k, hk⟩
  exact ⟨on_rate_plus_grid r k hk h2, on_rate_minus_grid r k hk h1⟩

theorem C9_rate_bounds_witness :
    (PLAYBACK_RATE_MIN ≤ applyRatePresses [true, false] 1 ∧
      applyRatePresses [true, false] 1 ≤ PLAYBACK_RATE_MAX) ∧
    |MainWindow.on_rate_plus 1 - 1| ≤ PLAYBACK_RATE_STEP := by
  have h := C9_rate_bounds 1 (by rw [PLAYBACK_RATE_MIN]; norm_num)
    (by rw [PLAYBACK_RATE_MAX]; norm_num)
  exact ⟨h.1 [true, false], (h.2.2.2 ⟨1000, by norm_num⟩).1⟩

/-! ### Claim C10

Embedding of `build_output_device_list` (lines 115-123).  The function is
parametrized by the sink names parsed from `pactl list short sinks` and the
output-capable device names from `sd.query_devices()`; the claim quantifies
over every possible result of those two external queries, so they enter as
arbitrary string lists. -/

/-- One of the two `for` loops of `build_output_device_list`: append each
name not already present. -/
def appendUnique (names : List String) (xs : List String) : List String :=
  xs.foldl (fun ns s => if s ∈ ns then ns else ns ++ [s]) names

/-- Shallow embedding of `build_output_device_list` (lines 115-123):
start from `["default"]`, add unseen pactl sink names, then unseen
sounddevice output device names. -/
def build_output_device_list (pactlSinks sdDeviceNames : List String) : List String :=
  appendUnique (appendUnique ["default"] pactlSinks) sdDeviceNames

theorem appendUnique_eq_append (names xs : List String) :
    ∃ t, appendUnique names xs = names ++ t := by
  induction xs generalizing names with
  | nil => exact ⟨[], by simp [appendUnique]⟩
  | cons x xs ih =>
    rw [appendUnique, List.foldl_cons]
    by_cases hx : x ∈ names
    · rw [if_pos hx]
      exact ih names
    · rw [if_neg hx]
      obtain ⟨t, ht⟩ := ih (names ++ [x])
      exact ⟨[x] ++ t, by rw [← List.append_assoc]; exact ht⟩

theorem appendUnique_nodup (names xs : List String) (h : names.Nodup) :
    (appendUnique names xs).Nodup := by
  induction xs generalizing names with
  | nil => simpa [appendUnique] using h
  | cons x xs ih =>
    rw [appendUnique, List.foldl_cons]
    by_cases hx : x ∈ names
    · rw [if_pos hx]
      exact ih names h
    · rw [if_neg hx]
      apply ih
      simp [List.nodup_append, h, hx]

/-- Claim C10: for every result of the pactl sink listing and the
sounddevice device query, `build_output_device_list` returns a list whose
first element is `"default"` and which contains no duplicate names. -/
theorem C10_device_list_default_and_nodup (pactlSinks sdDeviceNames : List String) :
    (build_output_device_list pactlSinks sdDeviceNames).head? = some "default" ∧
    (build_output_device_list pactlSinks sdDeviceNames).Nodup := by
  constructor
  · rw [build_output_device_list]
    obtain ⟨t1, ht1⟩ := appendUnique_eq_append ["default"] pactlSinks
    obtain ⟨t2, ht2⟩ := appendUnique_eq_append (appendUnique ["default"] pactlSinks)
      sdDeviceNames
    rw [ht2, ht1]
    rfl
  · rw [build_output_device_list]
    apply appendUnique_nodup
    apply appendUnique_nodup
    simp
